import Mathlib

/-!
Verification of the sia_scout scanning pipeline.

Shallow embedding of the core of the sia_scout repository:
the SQLite storage layer (`sia_scout/database.py`), the API gateway
(`sia_scout/client.py`), the collector producer/worker pipeline
(`sia_scout/collector.py`), and CIDR block expansion
(`ipaddress.ip_network(...).subnets(new_prefix=24)` as used by the
collector).  Machine-level details are modelled as follows: SQLite
tables are lists of rows in insertion order; `INSERT OR IGNORE`
under a composite primary key is a conditional append; a plain
`INSERT` that violates the primary key is an `Except.error`
(sqlite3 raises `IntegrityError: UNIQUE constraint failed`); JSON
numbers are rationals; Python's `None` is `Option.none`.
-/

/-- Logging severity levels of the Python `logging` module, as used by
`sia_scout` (`logger.debug` / `info` / `warning` / `error` / `critical`). -/
inductive LogLevel where
  | debug
  | info
  | warning
  | error
  | critical
deriving DecidableEq, Repr

/-- One row of the `hits` table, whose 19 columns are created by
`initialize_database` in `sia_scout/database.py` (lines 13-62).  Every
column is nullable in SQLite, so each field is an `Option`; the collector
worker's `hit.setdefault(key, None)` loop guarantees each key exists and
is `None` when the API omitted it, which is exactly this representation.
The declared primary key is `(ipaddress, listed, rule)`. -/
structure Hit where
  dataset : Option String
  ipaddress : Option String
  asn : Option Int
  cc : Option String
  listed : Option Int
  seen : Option Int
  valid_until : Option Int
  rule : Option String
  botname : Option String
  botname_malpedia : Option String
  dstport : Option Int
  heuristic : Option String
  lat : Option Rat
  lon : Option Rat
  protocol : Option String
  srcip : Option String
  domain : Option String
  helo : Option String
  detection : Option String
deriving DecidableEq, Repr

/-- The primary-key triple of a `hits` row, when all three key columns are
present.  SQLite (for a non-INTEGER composite primary key) permits NULLs in
primary-key columns and treats NULL as distinct from every value, so a row
with a NULL key column never conflicts with any other row; such a row has
no key triple here. -/
def hitKey (h : Hit) : Option (String × Int × String) :=
  match h.ipaddress, h.listed, h.rule with
  | some a, some l, some r => some (a, l, r)
  | _, _, _ => none

/-- Whether inserting row `h` conflicts with an existing row `g` under the
`(ipaddress, listed, rule)` primary key of the `hits` table. -/
def keyConflicts (g h : Hit) : Bool :=
  match hitKey g, hitKey h with
  | some k1, some k2 => decide (k1 = k2)
  | _, _ => false

/-- Effect of one `INSERT OR IGNORE INTO hits` row: if some existing row has
the same (non-NULL) primary-key triple the statement is a no-op, otherwise
the row is appended.  It never raises. -/
def insertOrIgnoreHit (table : List Hit) (h : Hit) : List Hit :=
  if table.any (fun g => keyConflicts g h) then table else table ++ [h]

/-- `insert_hits(db, hits)` from `sia_scout/database.py` (lines 86-104):
`if not hits: return 0`, then one `executemany` of
`INSERT OR IGNORE INTO hits ...`, then `return len(hits)`.  The result is
the table after the inserts paired with the Python return value. -/
def insert_hits (table : List Hit) (hits : List Hit) : List Hit × Nat :=
  if hits.isEmpty then (table, 0)
  else (hits.foldl insertOrIgnoreHit table, hits.length)

/-- Number of rows of the table whose primary-key triple is `k`. -/
def countKey (table : List Hit) (k : String × Int × String) : Nat :=
  (table.filter (fun g => decide (hitKey g = some k))).length

/-- One row of the `scanned_cidrs` table: `cidr TEXT PRIMARY KEY,
scanned_at INTEGER` (`sia_scout/database.py` lines 65-75). -/
abbrev ScannedRow := String × Int

/-- `mark_as_scanned(db, cidr_str, timestamp)` from `sia_scout/database.py`
(lines 107-113): a plain `INSERT INTO scanned_cidrs (cidr, scanned_at)
VALUES (?, ?)` — not `INSERT OR IGNORE` — so a second insert with the same
`cidr` violates the `cidr` primary key and sqlite3 raises an
`IntegrityError`, modelled as `Except.error`. -/
def mark_as_scanned (table : List ScannedRow) (cidr : String) (ts : Int) :
    Except String (List ScannedRow) :=
  if table.any (fun row => row.1 == cidr) then
    Except.error "UNIQUE constraint failed: scanned_cidrs.cidr"
  else
    Except.ok (table ++ [(cidr, ts)])

/-- The tables whose `CREATE TABLE IF NOT EXISTS` statements
`initialize_database` executes (`sia_scout/database.py` lines 9-77):
`hits` and `scanned_cidrs` only. -/
def databaseTablesCreated : List String := ["hits", "scanned_cidrs"]

/-- The functions defined by the module `sia_scout/database.py`. -/
def databaseModuleFunctions : List String :=
  ["initialize_database", "check_if_scanned", "insert_hits", "mark_as_scanned"]

/-- The attribute of the `database` module that `_history_worker` calls to
store its matches (`sia_scout/collector.py` line 116). -/
def historyWorkerInsertCallee : String := "insert_history_hits"

/-- The parsed JSON body of a listings response, as the collector reads it:
only the truthiness of the dict and its `results` key matter
(`response and response.get('results')`).  `results = none` models a body
without a `results` key. -/
structure ApiResponse where
  code : Option Nat
  results : Option (List Hit)
deriving DecidableEq, Repr

/-- What the HTTP layer hands to `get_cidr_listings`: either a response with
a status code and (for 200) a parsed body, or an `aiohttp.ClientError`
raised at the network level. -/
inductive FetchOutcome where
  | httpResp (status : Nat) (body : ApiResponse)
  | netFailure
deriving DecidableEq, Repr

/-- What `get_cidr_listings` does with a response: either return a value to
the worker — `some body` for a parsed JSON dict, `none` for Python `None` —
possibly logging at some level on the way, or call `sys.exit(1)` after
logging (the 429 branch). -/
inductive GatewayResult where
  | ret (response : Option ApiResponse) (logged : Option LogLevel)
  | exits (logged : LogLevel)
deriving DecidableEq, Repr

/-- Response classification of `get_cidr_listings` in `sia_scout/client.py`
(lines 112-129): 200 returns the parsed JSON; 404 returns the literal dict
`{"code": 404, "results": []}`; 429 logs critical and `sys.exit(1)`; any
other status logs a warning and returns `None`; an `aiohttp.ClientError`
logs at error level and returns `None`. -/
def get_cidr_listings : FetchOutcome → GatewayResult
  | FetchOutcome.httpResp status body =>
    if status = 200 then GatewayResult.ret (some body) none
    else if status = 404 then
      GatewayResult.ret (some ⟨some 404, some []⟩) none
    else if status = 429 then GatewayResult.exits LogLevel.critical
    else GatewayResult.ret none (some LogLevel.warning)
  | FetchOutcome.netFailure => GatewayResult.ret none (some LogLevel.error)

/-- The worker-side classification of a returned value, from the guard
`if response and response.get('results'):` in both `_live_worker` and
`_history_worker`: a truthy (non-`None`, non-empty-dict) response with a
present non-empty `results` list means matches; any other returned value
means nothing to store; `None` means no data was obtained. -/
inductive Outcome where
  | matches (hits : List Hit)
  | empty
  | transient
deriving DecidableEq, Repr

/-- Maps the value returned by `get_cidr_listings` to the worker-side
outcome.  A Python dict is falsy exactly when empty, and
`response.get('results')` is falsy when the key is absent, `None`, or the
empty list, so the guard passes exactly when `results` holds a non-empty
list. -/
def workerOutcome : Option ApiResponse → Outcome
  | some r =>
    match r.results with
    | some (h :: t) => Outcome.matches (h :: t)
    | _ => Outcome.empty
  | none => Outcome.transient

/-- The URL built by `get_cidr_listings` (`sia_scout/client.py` line 114):
`f"{base_url}/api/intel/v1/byobject/cidr/{dataset}/{mode}/{type}/{cidr_str}?limit={limit}"`.
The only query parameter is `limit`. -/
def cidrListingsUrl (base dataset mode ty cidr : String) (limit : Nat) : String :=
  base ++ "/api/intel/v1/byobject/cidr/" ++ dataset ++ "/" ++ mode ++ "/" ++
    ty ++ "/" ++ cidr ++ "?limit=" ++ toString limit

/-- The parameter names of
`AsyncSiaClient.get_cidr_listings(self, cidr_str, dataset, mode, type, limit)`
(`sia_scout/client.py` line 112).  None of them has a default value. -/
def getCidrListingsParams : List String :=
  ["self", "cidr_str", "dataset", "mode", "type", "limit"]

/-- The keyword arguments of the call in `_live_worker`
(`sia_scout/collector.py` line 59):
`get_cidr_listings(cidr_str=subnet_str, **self.params)`, where
`params = {'dataset': ..., 'mode': ..., 'limit': ...}` (`main.py` line 56). -/
def liveWorkerCallKwargs : List String := ["cidr_str", "dataset", "mode", "limit"]

/-- The keyword arguments of the call in `_history_worker`
(`sia_scout/collector.py` lines 102-103):
`get_cidr_listings(cidr_str=subnet_str, since=since_ts, until=until_ts,
**self.params)`. -/
def historyWorkerCallKwargs : List String :=
  ["cidr_str", "since", "until", "dataset", "mode", "limit"]

/-- Whether a Python call that passes exactly the keyword arguments
`kwargs` binds to a method whose (default-free) parameter list is `params`
(with `self` bound by the method lookup): every keyword must name a
parameter and every parameter other than `self` must be supplied, else the
call raises `TypeError`. -/
def pythonCallBinds (params kwargs : List String) : Bool :=
  kwargs.all (fun k => params.contains k) &&
    params.all (fun p => p == "self" || kwargs.contains p)

/-- The database state a live worker mutates: the `hits` table and the
`scanned_cidrs` table. -/
structure LiveDbState where
  hits : List Hit
  scanned : List ScannedRow
deriving DecidableEq, Repr

/-- The per-block body of `_live_worker` (`sia_scout/collector.py` lines
57-76), after the response value is in hand: if the response is truthy with
a non-empty `results` list, the hits (with all columns defaulted, which the
`Hit` representation already guarantees) are inserted with `insert_hits`;
then, in every case, the block is marked scanned with `mark_as_scanned`
at the current time. -/
def liveWorkerHandleBlock (st : LiveDbState) (subnet : String)
    (response : Option ApiResponse) (now : Int) :
    Except String LiveDbState :=
  let st1 :=
    match response with
    | some r =>
      match r.results with
      | some (h :: t) => { st with hits := (insert_hits st.hits (h :: t)).1 }
      | _ => st
    | none => st
  match mark_as_scanned st1.scanned subnet now with
  | Except.ok sc => Except.ok { st1 with scanned := sc }
  | Except.error e => Except.error e

/-- The counter of the `asyncio.Semaphore` created with capacity
`concurrency` (`AsyncCollector.__init__`), observed while `held` workers
are inside their `async with self.semaphore` block: acquisition decrements
the private `_value` field that the collector reads. -/
def semaphoreCounterValue (concurrency held : Nat) : Nat := concurrency - held

/-- Number of worker tasks `run_scan` creates (`sia_scout/collector.py`
lines 131-136): one per unit of `self.semaphore._value`, read before any
worker has started, i.e. while no permit is held. -/
def workersCreated (concurrency : Nat) : Nat := semaphoreCounterValue concurrency 0

/-- Number of `None` sentinels the producer pushes after exhausting all
blocks (`sia_scout/collector.py` line 50 and line 93):
`for _ in range(self.semaphore._value): await self.queue.put(None)` — the
semaphore counter is re-read at that moment, when `heldAtEnd` workers may
be holding permits. -/
def sentinelsPushed (concurrency heldAtEnd : Nat) : Nat :=
  semaphoreCounterValue concurrency heldAtEnd

/-- A worker's handling of one popped queue item (`sia_scout/collector.py`
line 56): on the `None` sentinel it executes
`self.queue.put_nowait(None); break` — appending exactly one sentinel back
onto the queue and leaving the loop (`false`) — and on a block string it
keeps the queue unchanged and continues (`true`). -/
def workerHandleItem : Option String → List (Option String) →
    List (Option String) × Bool
  | none, q => (q ++ [none], false)
  | some _, q => (q, true)

example : mark_as_scanned [] "203.0.113.0/24" 100 =
    Except.ok [("203.0.113.0/24", 100)] := by rfl

example : mark_as_scanned [("203.0.113.0/24", 100)] "203.0.113.0/24" 200 =
    Except.error "UNIQUE constraint failed: scanned_cidrs.cidr" := by rfl

example : pythonCallBinds getCidrListingsParams historyWorkerCallKwargs = false := by rfl

example : pythonCallBinds getCidrListingsParams liveWorkerCallKwargs = false := by rfl

example : pythonCallBinds getCidrListingsParams
    ["cidr_str", "dataset", "mode", "type", "limit"] = true := by rfl

/-- A network block as Python's `ipaddress.ip_network` produces it: an
address width (`32` for `IPv4Network`, `128` for `IPv6Network`), the
network address as a natural number, and a prefix length. -/
structure IPNetwork where
  bits : Nat
  addr : Nat
  plen : Nat
deriving DecidableEq, Repr

/-- Validity guaranteed by a successful strict `ipaddress.ip_network(s)`
call: a real address family, a prefix length within the width, an address
within the space, and no host bits set (strict mode raises `ValueError`
otherwise, which the producers catch and skip). -/
def IPNetwork.valid (n : IPNetwork) : Prop :=
  (n.bits = 32 ∨ n.bits = 128) ∧ n.plen ≤ n.bits ∧
    n.addr < 2 ^ n.bits ∧ n.addr % 2 ^ (n.bits - n.plen) = 0

/-- Number of addresses covered by the block. -/
def IPNetwork.size (n : IPNetwork) : Nat := 2 ^ (n.bits - n.plen)

/-- The block covers address `a`. -/
def IPNetwork.covers (n : IPNetwork) (a : Nat) : Prop :=
  n.addr ≤ a ∧ a < n.addr + n.size

instance (n : IPNetwork) (a : Nat) : Decidable (n.covers a) := by
  unfold IPNetwork.covers; infer_instance

instance (n : IPNetwork) : Decidable n.valid := by
  unfold IPNetwork.valid; infer_instance

/-- `network.subnets(new_prefix=npfx)`: the consecutive sub-blocks of
prefix length `npfx` covering `network`, in address order (Python yields
them lazily; the producers immediately materialise the list). -/
def subnetsTo (n : IPNetwork) (npfx : Nat) : List IPNetwork :=
  (List.range (2 ^ (npfx - n.plen))).map
    (fun i => ⟨n.bits, n.addr + i * 2 ^ (n.bits - npfx), npfx⟩)

/-- The expansion step shared by `_live_producer` and `_history_producer`
(`sia_scout/collector.py` lines 40 and 89):
`list(network.subnets(new_prefix=24)) if network.prefixlen < 24 else
[network]`. -/
def expandBlock (n : IPNetwork) : List IPNetwork :=
  if n.plen < 24 then subnetsTo n 24 else [n]

/-- The content of the persisted token file at startup, as `initial_auth`
reads it: absent, present but not JSON (`json.JSONDecodeError`), or a
parsed object whose `token` key may be missing and whose `expires` key
defaults to `0` (`data.get('expires', 0)`). -/
inductive TokenFileState where
  | missing
  | unparsable
  | parsed (token : Option String) (expires : Int)
deriving DecidableEq, Repr

/-- The result of the `requests.post` login call: an HTTP response with a
status and (for 200) the `token` / `expires` fields of its JSON body, or a
`requests.exceptions.RequestException`. -/
inductive LoginResult where
  | httpResp (status : Nat) (token : Option String) (expires : Option Int)
  | netFailure
deriving DecidableEq, Repr

/-- Observable outcome of `initial_auth`: the token was reused from the
file (no login request issued), a fresh token was obtained and the file
was rewritten with `{'token': ..., 'expires': ...}`, or the process
terminated via `sys.exit(1)` after a `logger.critical` message. -/
inductive AuthOutcome where
  | reused (token : Option String)
  | fresh (token : Option String) (expires : Int)
      (fileWritten : Option String × Int)
  | exitCritical
deriving DecidableEq, Repr

/-- The realm field of the login request body built by `initial_auth`
(`sia_scout/client.py` line 42):
`{"username": ..., "password": ..., "realm": "intel"}`. -/
def loginRequestBody (username password : String) : String × String × String :=
  (username, password, "intel")

/-- The path of the login endpoint (`sia_scout/client.py` line 41). -/
def loginPath : String := "/api/v1/login"

/-- The fresh-login half of `initial_auth` (`sia_scout/client.py` lines
40-57): a 200 response yields the body's token and expiry (expiry
defaulting to 0), both persisted to the token file; any other status, or a
network failure, logs critical and exits. -/
def performLogin : LoginResult → AuthOutcome
  | LoginResult.httpResp status token expires =>
    if status = 200 then
      AuthOutcome.fresh token (expires.getD 0) (token, expires.getD 0)
    else AuthOutcome.exitCritical
  | LoginResult.netFailure => AuthOutcome.exitCritical

/-- `initial_auth` (`sia_scout/client.py` lines 27-57): if the token file
parses and `time.time() < expires - 60`, the stored token is reused and no
request is made; otherwise the login call decides the outcome. -/
def initial_auth (file : TokenFileState) (now : Int) (login : LoginResult) :
    AuthOutcome :=
  match file with
  | TokenFileState.parsed token expires =>
    if now < expires - 60 then AuthOutcome.reused token else performLogin login
  | _ => performLogin login

example : expandBlock ⟨32, 3405803520, 22⟩ =
    [⟨32, 3405803520, 24⟩, ⟨32, 3405803776, 24⟩,
     ⟨32, 3405804032, 24⟩, ⟨32, 3405804288, 24⟩] := by decide

example : expandBlock ⟨32, 3405803520, 24⟩ = [⟨32, 3405803520, 24⟩] := by decide

/-- Whether the login-reuse branch of `initial_auth` fires: the token file
parsed and `time.time() < expires - 60`. -/
def tokenReusable : TokenFileState → Int → Bool
  | TokenFileState.parsed _ expires, now => decide (now < expires - 60)
  | _, _ => false

/-- A concrete hit row as the API would return it, with the three
primary-key columns present. -/
def sampleHit : Hit :=
  ⟨some "SBL", some "203.0.113.7", some 64500, some "US", some 1700000000,
   some 1700000100, some 1700600000, some "SBL123", none, none, none, none,
   none, none, none, none, none, none, none⟩

/-- A hit with the same primary-key triple as `sampleHit` but a different
payload column. -/
def sampleHitDup : Hit := { sampleHit with cc := some "DE" }

/-- Helper: a table containing no row keyed `k` contains no row that
conflicts with a row whose key is `k`. -/
lemma any_keyConflicts_eq_false (table : List Hit) (h : Hit)
    (k : String × Int × String) (hh : hitKey h = some k)
    (hfresh : countKey table k = 0) :
    table.any (fun g => keyConflicts g h) = false := by
  unfold countKey at hfresh
  rw [List.length_eq_zero, List.filter_eq_nil_iff] at hfresh
  rw [List.any_eq_false]
  intro g hg
  have hk : ¬ hitKey g = some k := by
    have := hfresh g hg
    simpa using this
  unfold keyConflicts
  rw [hh]
  cases hkg : hitKey g with
  | none => simp
  | some k1 =>
    simp only [decide_eq_true_eq]
    intro heq
    exact hk (by rw [hkg, heq])

/-- C1.  The claim says a second `mark_as_scanned` call for the same block
does not raise and leaves one row; the code issues a plain `INSERT` into
`scanned_cidrs`, whose `cidr` column is the primary key, so the second call
raises `sqlite3.IntegrityError` (UNIQUE constraint failed).  Evaluation of
the embedded `mark_as_scanned` at the failing input. -/
theorem c1_mark_as_scanned_second_insert_raises :
    mark_as_scanned [] "203.0.113.0/24" 100 =
      Except.ok [("203.0.113.0/24", 100)] ∧
    mark_as_scanned [("203.0.113.0/24", 100)] "203.0.113.0/24" 200 =
      Except.error "UNIQUE constraint failed: scanned_cidrs.cidr" :=
  ⟨rfl, rfl⟩

/-- C2.  The claim says initialization creates `hits`, `history_hits` and
`scanned_cidrs` and that the history worker writes through a storage-layer
insert; `initialize_database` creates only `hits` and `scanned_cidrs`, and
`database.py` defines no `insert_history_hits`, so the call
`database.insert_history_hits(db, hits)` in `_history_worker` raises
`AttributeError`. -/
theorem c2_history_storage_missing :
    databaseTablesCreated = ["hits", "scanned_cidrs"] ∧
    databaseTablesCreated.contains "history_hits" = false ∧
    databaseModuleFunctions.contains historyWorkerInsertCallee = false :=
  ⟨rfl, rfl, rfl⟩

/-- C3.  The URL built by `get_cidr_listings` does encode
dataset/mode/kind/block with the single query parameter `limit`, but the
function's parameter list has no `since`/`until`, so the history worker's
call (which passes `since=...`/`until=...`) raises `TypeError` instead of
transmitting the bounds — and neither worker call supplies the required
`type` argument, so neither call binds at all. -/
theorem c3_since_until_not_accepted :
    cidrListingsUrl "https://api.spamhaus.org" "ALL" "listed" "history"
        "203.0.113.0/24" 2000 =
      "https://api.spamhaus.org/api/intel/v1/byobject/cidr/ALL/listed/history/203.0.113.0/24?limit=2000" ∧
    getCidrListingsParams.contains "since" = false ∧
    getCidrListingsParams.contains "until" = false ∧
    pythonCallBinds getCidrListingsParams historyWorkerCallKwargs = false ∧
    pythonCallBinds getCidrListingsParams liveWorkerCallKwargs = false :=
  ⟨rfl, rfl, rfl, rfl, rfl⟩

/-- C8.  Inserting two hits with the same present `(ipaddress, listed,
rule)` triple into a table with no row under that key: the first insert
appends the row, the duplicate insert is a no-op (the `INSERT OR IGNORE`
embedding is total — it cannot raise), and exactly one row with that key
remains. -/
theorem c8_duplicate_hit_insert_is_noop (table : List Hit) (h g : Hit)
    (k : String × Int × String)
    (hh : hitKey h = some k) (hg : hitKey g = some k)
    (hfresh : countKey table k = 0) :
    insert_hits table [h] = (table ++ [h], 1) ∧
    insert_hits (table ++ [h]) [g] = (table ++ [h], 1) ∧
    countKey (insert_hits (table ++ [h]) [g]).1 k = 1 := by
  have hnone := any_keyConflicts_eq_false table h k hh hfresh
  have hstep1 : insert_hits table [h] = (table ++ [h], 1) := by
    simp [insert_hits, insertOrIgnoreHit, hnone]
  have hconf : keyConflicts h g = true := by
    unfold keyConflicts
    rw [hh, hg]
    simp
  have hany : (table ++ [h]).any (fun g0 => keyConflicts g0 g) = true := by
    rw [List.any_eq_true]
    exact ⟨h, by simp, hconf⟩
  have hstep2 : insert_hits (table ++ [h]) [g] = (table ++ [h], 1) := by
    simp [insert_hits, insertOrIgnoreHit, hany]
  refine ⟨hstep1, hstep2, ?_⟩
  rw [hstep2]
  unfold countKey at hfresh ⊢
  rw [List.filter_append, List.length_append, hfresh]
  simp [hh]

/-- Witness for C8 at concrete rows: `sampleHit` and `sampleHitDup` share
the key `("203.0.113.7", 1700000000, "SBL123")`. -/
theorem c8_witness :
    insert_hits [] [sampleHit] = ([sampleHit], 1) ∧
    insert_hits [sampleHit] [sampleHitDup] = ([sampleHit], 1) ∧
    countKey (insert_hits [sampleHit] [sampleHitDup]).1
      ("203.0.113.7", 1700000000, "SBL123") = 1 := by
  have := c8_duplicate_hit_insert_is_noop [] sampleHit sampleHitDup
    ("203.0.113.7", 1700000000, "SBL123") (by decide) (by decide) (by decide)
  simpa using this

/-- C9 counterexample: inserting the same row twice into an empty table
returns 2 (the input length) although only 1 row was actually inserted, so
`insert_hits` does not return the number of rows actually inserted. -/
theorem c9_counterexample :
    (insert_hits [] [sampleHit, sampleHit]).2 = 2 ∧
    (insert_hits [] [sampleHit, sampleHit]).1 = [sampleHit] ∧
    ((insert_hits [] [sampleHit, sampleHit]).2 ==
      (insert_hits [] [sampleHit, sampleHit]).1.length) = false := by
  decide

/-- C9 amended: `insert_hits` returns the length of its input list
(duplicates are skipped in the stored table but still counted in the
returned value), and a row conflicting with an existing row leaves the
table unchanged. -/
theorem c9_insert_hits_returns_input_length :
    (∀ (table hits : List Hit), (insert_hits table hits).2 = hits.length) ∧
    (∀ (table : List Hit) (h : Hit),
      table.any (fun g => keyConflicts g h) = true →
      insertOrIgnoreHit table h = table) := by
  constructor
  · intro table hits
    cases hits with
    | nil => simp [insert_hits]
    | cons x xs => simp [insert_hits]
  · intro table h hconf
    simp [insertOrIgnoreHit, hconf]

/-- Witness for C9's amended statement at concrete inputs. -/
theorem c9_witness :
    (insert_hits [] [sampleHit, sampleHit]).2 = [sampleHit, sampleHit].length ∧
    insertOrIgnoreHit [sampleHit] sampleHitDup = [sampleHit] :=
  ⟨c9_insert_hits_returns_input_length.1 [] [sampleHit, sampleHit],
   c9_insert_hits_returns_input_length.2 [sampleHit] sampleHitDup (by decide)⟩

/-- C4 counterexample: on a network-level failure the gateway returns no
data but logs at error level (`logger.error` in the `aiohttp.ClientError`
handler), not at warning level as the claim states. -/
theorem c4_counterexample :
    get_cidr_listings FetchOutcome.netFailure =
      GatewayResult.ret none (some LogLevel.error) ∧
    (get_cidr_listings FetchOutcome.netFailure ==
      GatewayResult.ret none (some LogLevel.warning)) = false := by
  decide

/-- C4 amended: the strict classification of `get_cidr_listings` combined
with the worker guard — 200 with a present non-empty `results` array gives
matches, 200 with an absent or empty array gives empty, 404 returns a body
the worker treats exactly as empty, 429 exits the process after a
critical-level diagnostic, any other status returns no data logging a
warning, and a network-level failure returns no data logging at error
level; in the no-data cases the worker continues with a transient
outcome. -/
theorem c4_response_classification :
    (∀ (body : ApiResponse) (h : Hit) (t : List Hit),
        body.results = some (h :: t) →
        get_cidr_listings (FetchOutcome.httpResp 200 body) =
          GatewayResult.ret (some body) none ∧
        workerOutcome (some body) = Outcome.matches (h :: t)) ∧
    (∀ body : ApiResponse, body.results = none ∨ body.results = some [] →
        get_cidr_listings (FetchOutcome.httpResp 200 body) =
          GatewayResult.ret (some body) none ∧
        workerOutcome (some body) = Outcome.empty) ∧
    (∀ body : ApiResponse,
        get_cidr_listings (FetchOutcome.httpResp 404 body) =
          GatewayResult.ret (some ⟨some 404, some []⟩) none ∧
        workerOutcome (some ⟨some 404, some []⟩) = Outcome.empty) ∧
    (∀ body : ApiResponse,
        get_cidr_listings (FetchOutcome.httpResp 429 body) =
          GatewayResult.exits LogLevel.critical) ∧
    (∀ (status : Nat) (body : ApiResponse),
        status ≠ 200 → status ≠ 404 → status ≠ 429 →
        get_cidr_listings (FetchOutcome.httpResp status body) =
          GatewayResult.ret none (some LogLevel.warning)) ∧
    (get_cidr_listings FetchOutcome.netFailure =
      GatewayResult.ret none (some LogLevel.error)) ∧
    workerOutcome none = Outcome.transient := by
  refine ⟨?_, ?_, ?_, ?_, ?_, rfl, rfl⟩
  · intro body h t hres
    exact ⟨rfl, by simp [workerOutcome, hres]⟩
  · intro body hres
    rcases hres with hres | hres <;>
      exact ⟨rfl, by simp [workerOutcome, hres]⟩
  · intro body
    exact ⟨rfl, rfl⟩
  · intro body
    rfl
  · intro status body h200 h404 h429
    simp [get_cidr_listings, h200, h404, h429]

/-- Witness for C4's amended statement at concrete responses. -/
theorem c4_witness :
    (get_cidr_listings (FetchOutcome.httpResp 200 ⟨some 200, some [sampleHit]⟩)
        = GatewayResult.ret (some ⟨some 200, some [sampleHit]⟩) none ∧
      workerOutcome (some ⟨some 200, some [sampleHit]⟩) =
        Outcome.matches [sampleHit]) ∧
    (get_cidr_listings (FetchOutcome.httpResp 200 ⟨some 200, some []⟩) =
        GatewayResult.ret (some ⟨some 200, some []⟩) none ∧
      workerOutcome (some ⟨some 200, some []⟩) = Outcome.empty) ∧
    get_cidr_listings (FetchOutcome.httpResp 503 ⟨none, none⟩) =
      GatewayResult.ret none (some LogLevel.warning) :=
  ⟨c4_response_classification.1 ⟨some 200, some [sampleHit]⟩ sampleHit [] rfl,
   c4_response_classification.2.1 ⟨some 200, some []⟩ (Or.inr rfl),
   c4_response_classification.2.2.2.2.1 503 ⟨none, none⟩
     (by decide) (by decide) (by decide)⟩

/-- C6.  A live worker that received no data (`get_cidr_listings` returned
`None`) inserts nothing into `hits` and still marks the block scanned: for
a block not already in the cache (as the producer's cache filter
guarantees) the step succeeds, leaves `hits` unchanged and appends the
block to `scanned_cidrs`. -/
theorem c6_transient_error_still_marks_scanned (st : LiveDbState)
    (subnet : String) (now : Int)
    (hfresh : st.scanned.any (fun row => row.1 == subnet) = false) :
    liveWorkerHandleBlock st subnet none now =
      Except.ok ⟨st.hits, st.scanned ++ [(subnet, now)]⟩ ∧
    (subnet, now) ∈ st.scanned ++ [(subnet, now)] := by
  constructor
  · simp [liveWorkerHandleBlock, mark_as_scanned, hfresh]
  · simp

/-- Witness for C6 on an empty database state. -/
theorem c6_witness :
    liveWorkerHandleBlock ⟨[], []⟩ "198.51.100.0/24" none 7 =
      Except.ok ⟨[], [("198.51.100.0/24", 7)]⟩ ∧
    ("198.51.100.0/24", (7 : Int)) ∈ ([] : List ScannedRow) ++
      [("198.51.100.0/24", 7)] :=
  c6_transient_error_still_marks_scanned ⟨[], []⟩ "198.51.100.0/24" 7 (by decide)

/-- C7 counterexample: with the default concurrency of 20 workers, if one
worker still holds a semaphore permit (is inside its API call) when the
producer finishes enumeration, the producer's
`for _ in range(self.semaphore._value)` loop pushes only 19 sentinels, not
the 20 the claim requires. -/
theorem c7_counterexample :
    sentinelsPushed 20 1 = 19 ∧ workersCreated 20 = 20 ∧
    (sentinelsPushed 20 1 == workersCreated 20) = false := by
  decide

/-- C7 amended: the producer pushes one sentinel per unit of the semaphore
counter at the moment enumeration ends — the configured worker count minus
the permits then held, which equals the worker count exactly when no permit
is held — and a worker that pops a sentinel re-pushes exactly one sentinel
and exits, while a worker that pops a block continues. -/
theorem c7_sentinel_protocol :
    (∀ concurrency held : Nat,
        sentinelsPushed concurrency held = workersCreated concurrency - held) ∧
    (∀ concurrency : Nat,
        sentinelsPushed concurrency 0 = workersCreated concurrency) ∧
    (∀ q : List (Option String), workerHandleItem none q = (q ++ [none], false)) ∧
    (∀ (s : String) (q : List (Option String)),
        workerHandleItem (some s) q = (q, true)) :=
  ⟨fun _ _ => rfl, fun _ => rfl, fun _ => rfl, fun _ _ => rfl⟩

/-- C10.  Token acquisition: a parsed token file whose expiry is more than
60 seconds past `now` is reused — with an outcome independent of whatever
the login endpoint would have answered, i.e. no login request is consulted;
otherwise a login decides the outcome: 200 yields a fresh token whose
token/expiry pair is persisted to the file, any other status exits after a
critical diagnostic, as does a network failure during login; and the login
body always carries the fixed realm `"intel"`. -/
theorem c10_token_acquisition :
    (∀ (token : Option String) (expires now : Int) (login : LoginResult),
        now < expires - 60 →
        initial_auth (TokenFileState.parsed token expires) now login =
          AuthOutcome.reused token) ∧
    (∀ (token : Option String) (expires now : Int) (l1 l2 : LoginResult),
        now < expires - 60 →
        initial_auth (TokenFileState.parsed token expires) now l1 =
          initial_auth (TokenFileState.parsed token expires) now l2) ∧
    (∀ (file : TokenFileState) (now : Int) (tok : Option String)
        (exp : Option Int),
        tokenReusable file now = false →
        initial_auth file now (LoginResult.httpResp 200 tok exp) =
          AuthOutcome.fresh tok (exp.getD 0) (tok, exp.getD 0)) ∧
    (∀ (file : TokenFileState) (now : Int) (status : Nat)
        (tok : Option String) (exp : Option Int),
        tokenReusable file now = false → status ≠ 200 →
        initial_auth file now (LoginResult.httpResp status tok exp) =
          AuthOutcome.exitCritical) ∧
    (∀ (file : TokenFileState) (now : Int),
        tokenReusable file now = false →
        initial_auth file now LoginResult.netFailure =
          AuthOutcome.exitCritical) ∧
    (∀ u p : String, (loginRequestBody u p).2.2 = "intel") := by
  refine ⟨?_, ?_, ?_, ?_, ?_, fun _ _ => rfl⟩
  · intro token expires now login hlt
    simp [initial_auth, hlt]
  · intro token expires now l1 l2 hlt
    simp [initial_auth, hlt]
  · intro file now tok exp hstale
    cases file with
    | missing => rfl
    | unparsable => rfl
    | parsed t e =>
      have : ¬ now < e - 60 := by simpa [tokenReusable] using hstale
      simp [initial_auth, this, performLogin]
  · intro file now status tok exp hstale h200
    cases file with
    | missing => simp [initial_auth, performLogin, h200]
    | unparsable => simp [initial_auth, performLogin, h200]
    | parsed t e =>
      have : ¬ now < e - 60 := by simpa [tokenReusable] using hstale
      simp [initial_auth, this, performLogin, h200]
  · intro file now hstale
    cases file with
    | missing => rfl
    | unparsable => rfl
    | parsed t e =>
      have : ¬ now < e - 60 := by simpa [tokenReusable] using hstale
      simp [initial_auth, this, performLogin]

/-- Witness for C10 at concrete file states and login responses. -/
theorem c10_witness :
    initial_auth (TokenFileState.parsed (some "tok") 1000) 100
        LoginResult.netFailure = AuthOutcome.reused (some "tok") ∧
    initial_auth TokenFileState.missing 100
        (LoginResult.httpResp 200 (some "t2") (some 5000)) =
      AuthOutcome.fresh (some "t2") 5000 (some "t2", 5000) ∧
    initial_auth TokenFileState.unparsable 100
        (LoginResult.httpResp 401 none none) = AuthOutcome.exitCritical ∧
    initial_auth TokenFileState.missing 100 LoginResult.netFailure =
      AuthOutcome.exitCritical :=
  ⟨c10_token_acquisition.1 (some "tok") 1000 100 LoginResult.netFailure
      (by decide),
   c10_token_acquisition.2.2.1 TokenFileState.missing 100 (some "t2")
      (some 5000) (by decide),
   c10_token_acquisition.2.2.2.1 TokenFileState.unparsable 100 401 none none
      (by decide) (by decide),
   c10_token_acquisition.2.2.2.2.1 TokenFileState.missing 100 (by decide)⟩

/-- Helper: membership in `subnetsTo` is membership in the indexed family
of consecutive sub-blocks. -/
lemma subnetsTo_mem (n m : IPNetwork) (npfx : Nat) :
    m ∈ subnetsTo n npfx ↔
      ∃ i, i < 2 ^ (npfx - n.plen) ∧
        m = IPNetwork.mk n.bits (n.addr + i * 2 ^ (n.bits - npfx)) npfx := by
  unfold subnetsTo
  rw [List.mem_map]
  constructor
  · rintro ⟨i, hi, rfl⟩
    exact ⟨i, List.mem_range.mp hi, rfl⟩
  · rintro ⟨i, hi, rfl⟩
    exact ⟨i, List.mem_range.mpr hi, rfl⟩

/-- Helper: division bracketing, `off / s * s ≤ off < off / s * s + s`. -/
lemma div_mul_bracket (s off : Nat) (hs : 0 < s) :
    off / s * s ≤ off ∧ off < off / s * s + s := by
  refine ⟨Nat.div_mul_le_self off s, ?_⟩
  calc off = off / s * s + off % s := (Nat.div_add_mod' off s).symm
    _ < off / s * s + s := Nat.add_lt_add_left (Nat.mod_lt off hs) _

/-- Helper: every point of `[addr, addr + N * s)` lies in the `i`-th
length-`s` slice for some `i < N`. -/
lemma interval_cover (addr s N a : Nat) (hs : 0 < s)
    (h1 : addr ≤ a) (h2 : a < addr + N * s) :
    ∃ i, i < N ∧ addr + i * s ≤ a ∧ a < addr + i * s + s := by
  refine ⟨(a - addr) / s, ?_, ?_, ?_⟩
  · have hoff : a - addr < N * s := by
      refine (tsub_lt_iff_right h1).mpr ?_
      rwa [Nat.add_comm] at h2
    exact (Nat.div_lt_iff_lt_mul hs).mpr hoff
  · have hx := (div_mul_bracket s (a - addr) hs).1
    calc addr + (a - addr) / s * s ≤ addr + (a - addr) :=
          Nat.add_le_add_left hx addr
      _ = a := Nat.add_sub_cancel' h1
  · have hx := (div_mul_bracket s (a - addr) hs).2
    calc a = addr + (a - addr) := (Nat.add_sub_cancel' h1).symm
      _ < addr + ((a - addr) / s * s + s) := Nat.add_lt_add_left hx addr
      _ = addr + (a - addr) / s * s + s := by rw [Nat.add_assoc]

/-- Helper: the length-`s` slices of `[addr, ...)` are pairwise disjoint:
a point in slices `i` and `j` forces `i = j`. -/
lemma interval_unique (addr s a i j : Nat)
    (hi1 : addr + i * s ≤ a) (hi2 : a < addr + i * s + s)
    (hj1 : addr + j * s ≤ a) (hj2 : a < addr + j * s + s) : i = j := by
  rcases Nat.lt_trichotomy i j with h | h | h
  · exfalso
    have h1 : (i + 1) * s ≤ j * s :=
      Nat.mul_le_mul_right s (Nat.succ_le_of_lt h)
    have habs : a < a :=
      calc a < addr + i * s + s := hi2
        _ = addr + (i + 1) * s := by ring
        _ ≤ addr + j * s := Nat.add_le_add_left h1 addr
        _ ≤ a := hj1
    exact absurd habs (Nat.lt_irrefl a)
  · exact h
  · exfalso
    have h1 : (j + 1) * s ≤ i * s :=
      Nat.mul_le_mul_right s (Nat.succ_le_of_lt h)
    have habs : a < a :=
      calc a < addr + j * s + s := hj2
        _ = addr + (j + 1) * s := by ring
        _ ≤ addr + i * s := Nat.add_le_add_left h1 addr
        _ ≤ a := hi1
    exact absurd habs (Nat.lt_irrefl a)

/-- C5.  Expansion: a valid block coarser than /24 expands into exactly
`2 ^ (24 - prefixlen)` sub-blocks, each of prefix length 24 in the same
address family, which cover exactly the addresses of the original block
(no gaps: every covered address lies in a sub-block; no excess: every
sub-block address is covered; no overlaps: a shared address forces the
sub-blocks equal); a block already at or finer than /24 expands to itself
as a one-element list. -/
theorem c5_expansion (n : IPNetwork) (hv : n.valid) :
    (n.plen < 24 →
      (expandBlock n).length = 2 ^ (24 - n.plen) ∧
      (∀ m ∈ expandBlock n, m.plen = 24 ∧ m.bits = n.bits) ∧
      (∀ a : Nat, n.covers a → ∃ m ∈ expandBlock n, m.covers a) ∧
      (∀ m ∈ expandBlock n, ∀ a : Nat, m.covers a → n.covers a) ∧
      (∀ m1 ∈ expandBlock n, ∀ m2 ∈ expandBlock n, ∀ a : Nat,
        m1.covers a → m2.covers a → m1 = m2)) ∧
    (24 ≤ n.plen → expandBlock n = [n]) := by
  constructor
  · intro hp
    have hexp : expandBlock n = subnetsTo n 24 := by
      simp [expandBlock, hp]
    have hbits : 24 ≤ n.bits := by
      rcases hv.1 with h | h <;> omega
    have hs : 0 < 2 ^ (n.bits - 24) := Nat.pos_pow_of_pos _ (by decide)
    have hsize : (2 : Nat) ^ (n.bits - n.plen) =
        2 ^ (24 - n.plen) * 2 ^ (n.bits - 24) := by
      rw [← pow_add]
      congr 1
      omega
    refine ⟨?_, ?_, ?_, ?_, ?_⟩
    · rw [hexp]
      simp [subnetsTo]
    · intro m hm
      rw [hexp, subnetsTo_mem] at hm
      obtain ⟨i, hi, rfl⟩ := hm
      exact ⟨rfl, rfl⟩
    · intro a hcov
      obtain ⟨h1, h2⟩ := hcov
      unfold IPNetwork.size at h2
      rw [hsize] at h2
      obtain ⟨i, hiN, hle, hlt⟩ :=
        interval_cover n.addr (2 ^ (n.bits - 24)) (2 ^ (24 - n.plen)) a hs h1 h2
      refine ⟨⟨n.bits, n.addr + i * 2 ^ (n.bits - 24), 24⟩, ?_, hle, ?_⟩
      · rw [hexp, subnetsTo_mem]
        exact ⟨i, hiN, rfl⟩
      · unfold IPNetwork.size
        exact hlt
    · intro m hm a hcov
      rw [hexp, subnetsTo_mem] at hm
      obtain ⟨i, hiN, rfl⟩ := hm
      obtain ⟨h1, h2⟩ := hcov
      unfold IPNetwork.size at h2
      refine ⟨le_trans (Nat.le_add_right n.addr _) h1, ?_⟩
      unfold IPNetwork.size
      have hstep : (i + 1) * 2 ^ (n.bits - 24) ≤
          2 ^ (24 - n.plen) * 2 ^ (n.bits - 24) :=
        Nat.mul_le_mul_right _ (Nat.succ_le_of_lt hiN)
      calc a < n.addr + i * 2 ^ (n.bits - 24) + 2 ^ (n.bits - 24) := h2
        _ = n.addr + (i + 1) * 2 ^ (n.bits - 24) := by ring
        _ ≤ n.addr + 2 ^ (24 - n.plen) * 2 ^ (n.bits - 24) :=
          Nat.add_le_add_left hstep n.addr
        _ = n.addr + 2 ^ (n.bits - n.plen) := by rw [hsize]
    · intro m1 hm1 m2 hm2 a hcov1 hcov2
      rw [hexp, subnetsTo_mem] at hm1 hm2
      obtain ⟨i, hiN, rfl⟩ := hm1
      obtain ⟨j, hjN, rfl⟩ := hm2
      obtain ⟨hi1, hi2⟩ := hcov1
      obtain ⟨hj1, hj2⟩ := hcov2
      unfold IPNetwork.size at hi2 hj2
      have := interval_unique n.addr (2 ^ (n.bits - 24)) a i j hi1 hi2 hj1 hj2
      rw [this]
  · intro hge
    simp [expandBlock, Nat.not_lt.mpr hge]

/-- Witness for C5: the /22 block 203.0.112.0/22 expands to 4 sub-blocks
and the /24 block 203.0.168.0/24 expands to itself. -/
theorem c5_witness :
    (expandBlock ⟨32, 3405803520, 22⟩).length = 2 ^ (24 - 22) ∧
    expandBlock ⟨32, 3405817856, 24⟩ = [⟨32, 3405817856, 24⟩] :=
  ⟨((c5_expansion ⟨32, 3405803520, 22⟩ (by decide)).1 (by decide)).1,
   (c5_expansion ⟨32, 3405817856, 24⟩ (by decide)).2 (by decide)⟩
